import Mathlib

/-!
Verification of the icon-generation pipeline in
`src/PDFScanner.xcodeproj/generate_icons.py`.

The script reads a JSON manifest (`Contents.json`), iterates over its
`images` array, parses each entry's `size` (`"WxH"`), `scale` (`"Nx"`) and
`filename` fields, computes pixel dimensions, and shells out to `sips`
to resize a source icon into the destination file, printing a log line per
attempt and a final completion notice.

We embed the script shallowly: Python floats on the decimal-string inputs
in scope are modelled by `ℚ` (every counterexample below uses values on
which binary floating point is exact), the external `sips` invocation is
an oracle mapping the invocation arguments to an outcome, and printing is
modelled as an ordered list of log events.
-/

namespace GenerateIcons

/-- A digit character's numeric value. -/
def digitVal (c : Char) : Nat := c.toNat - 48

/-- Numeric value of a list of decimal digit characters (most significant
first), as Python's `int`/`float` parsing accumulates them. -/
def natOfDigits (l : List Char) : Nat := l.foldl (fun a c => 10 * a + digitVal c) 0

/-- Python `str.split(sep)` for a one-character separator, on the
character list: `"".split(sep) = [""]`, and every occurrence of the
separator (consecutive ones included) delimits a (possibly empty) part. -/
def splitOnChar (sep : Char) : List Char → List (List Char)
  | [] => [[]]
  | c :: cs =>
    let r := splitOnChar sep cs
    if c = sep then [] :: r
    else
      match r with
      | [] => [[c]]
      | h :: t => (c :: h) :: t

/-- Model of Python `float` restricted to the unsigned decimal fragment
actually exercised by the manifest fields: an optional single `.` with
digits around it (`"20"`, `"83.5"`, `"2"`, also `".5"` and `"5."` as in
Python). Returns `none` where Python `float` raises `ValueError`. -/
def parsePyFloatChars (cs : List Char) : Option ℚ :=
  match splitOnChar '.' cs with
  | [ci] =>
      if ci ≠ [] ∧ ci.all Char.isDigit then some (natOfDigits ci) else none
  | [ci, cf] =>
      if (ci ≠ [] ∨ cf ≠ []) ∧ ci.all Char.isDigit ∧ cf.all Char.isDigit then
        some ((natOfDigits ci : ℚ) + (natOfDigits cf : ℚ) / (10 : ℚ) ^ cf.length)
      else none
  | _ => none

/-- Python `float(s)` on the decimal fragment in scope. -/
def parsePyFloat (s : String) : Option ℚ := parsePyFloatChars s.toList

/-- `size_str.split('x')` followed by `width_pt, height_pt = map(float, ...)`:
succeeds exactly when the split yields two parts and both parse as floats;
any other shape raises `ValueError` in the script (modelled as `none`). -/
def parseSize (s : String) : Option (ℚ × ℚ) :=
  match (splitOnChar 'x' s.toList).map parsePyFloatChars with
  | [some w, some h] => some (w, h)
  | _ => none

/-- Python `scale_str.replace('x', '')`: removes every occurrence of `'x'`. -/
def pyReplaceX : List Char → List Char
  | [] => []
  | c :: cs => if c = 'x' then pyReplaceX cs else c :: pyReplaceX cs

/-- `float(scale_str.replace('x', ''))` from the script. -/
def parseScale (s : String) : Option ℚ := parsePyFloatChars (pyReplaceX s.toList)

/-- Python `int()` on a float value: truncation toward zero. -/
def pyInt (q : ℚ) : ℤ := if 0 ≤ q then ⌊q⌋ else -⌊-q⌋

/-- `width_px = int(width_pt * scale)`, `height_px = int(height_pt * scale)`
(lines 53–55 of the script). -/
def pixelSize (wpt hpt sc : ℚ) : ℤ × ℤ := (pyInt (wpt * sc), pyInt (hpt * sc))

/-- The spec's §3 derivation, written from the spec's words for comparison:
`pixelSize = (round(w·s), round(h·s))`, rounding to the nearest integer
with ties away from zero. -/
def roundTiesAway (q : ℚ) : ℤ := if 0 ≤ q then ⌊q + 1/2⌋ else -⌊-q + 1/2⌋

/-- The spec's pixel-size derivation (nearest integer, ties away from zero),
to be compared against the script's `pixelSize`. -/
def pixelSizeSpec (wpt hpt sc : ℚ) : ℤ × ℤ := (roundTiesAway (wpt * sc), roundTiesAway (hpt * sc))

/-- One element of the manifest's `images` array: each field is
`image.get(...)`, i.e. absent (`None`) or a string. -/
structure Entry where
  filename : Option String
  size : Option String
  scale : Option String
deriving DecidableEq, Repr

/-- Python truthiness of `image.get(field)`: `None` and `""` are falsy. -/
def strTruthy : Option String → Bool
  | none => false
  | some s => s ≠ ""

/-- The parsed manifest file: `invalid` when `json.load` raises
`JSONDecodeError`; otherwise the optional `images` array (the script reads
it with `contents.get("images", [])`). -/
inductive ManifestData
  | invalid
  | parsed (images : Option (List Entry))
deriving DecidableEq

/-- Outcome of one `subprocess.run(["sips", ...], check=True)` call:
success, non-zero exit (`CalledProcessError`), or any other exception
(e.g. `OSError` when the binary is missing). -/
inductive ResizeOutcome
  | ok
  | nonZeroExit (err : String)
  | raiseOther (err : String)
deriving DecidableEq, Repr

/-- One line printed by the script, in order. -/
inductive Event
  | errSourceNotFound
  | errManifestNotFound
  | processing
  | generated (dest : String) (w h : ℤ)
  | errorGenerating (dest : String) (err : String)
  | complete
deriving DecidableEq, Repr

/-- An uncaught Python exception terminating `main`. -/
inductive PyException
  | jsonDecodeError
  | valueError
  | resizeRaise (err : String)
deriving DecidableEq, Repr

/-- Observable result of a run: printed lines, files written by `sips`,
the `sips` invocations made, and the uncaught exception if the run
aborted (`none` = `main` returned normally). -/
structure RunResult where
  log : List Event
  written : List String
  calls : List (String × ℤ × ℤ)
  exc : Option PyException
deriving DecidableEq, Repr

/-- `DEST_DIR` from the script's configuration block. -/
def DEST_DIR : String := "../PDFScanner/Assets.xcassets/AppIcon.appiconset"

/-- `os.path.join(DEST_DIR, filename)` for the relative filenames in scope. -/
def destOf (filename : String) : String := DEST_DIR ++ "/" ++ filename

/-- The environment a run executes in: whether the source icon and the
manifest file exist, the manifest's parsed content, and the behaviour of
the external `sips` invocation on given arguments. -/
structure World where
  sourceExists : Bool
  manifestExists : Bool
  manifest : ManifestData
  oracle : String → ℤ → ℤ → ResizeOutcome

/-- One loop iteration of `main` (lines 39–60): the truthiness guard, the
two parses (whose failure raises `ValueError`), and `resize_image`, which
catches only `CalledProcessError` and prints a per-item line. -/
def processEntry (oracle : String → ℤ → ℤ → ResizeOutcome) (e : Entry) : RunResult :=
  if strTruthy e.filename && strTruthy e.size && strTruthy e.scale then
    match parseSize (e.size.getD "") with
    | none => ⟨[], [], [], some .valueError⟩
    | some (wpt, hpt) =>
      match parseScale (e.scale.getD "") with
      | none => ⟨[], [], [], some .valueError⟩
      | some sc =>
        let p := pixelSize wpt hpt sc
        let dest := destOf (e.filename.getD "")
        match oracle dest p.1 p.2 with
        | .ok => ⟨[.generated dest p.1 p.2], [dest], [(dest, p.1, p.2)], none⟩
        | .nonZeroExit err => ⟨[.errorGenerating dest err], [], [(dest, p.1, p.2)], none⟩
        | .raiseOther err => ⟨[], [], [(dest, p.1, p.2)], some (.resizeRaise err)⟩
  else ⟨[], [], [], none⟩

/-- The `for image in contents.get("images", [])` loop: entries in order;
an uncaught exception stops the loop (and the function) immediately. -/
def processEntries (oracle : String → ℤ → ℤ → ResizeOutcome) : List Entry → RunResult
  | [] => ⟨[], [], [], none⟩
  | e :: rest =>
    let r := processEntry oracle e
    match r.exc with
    | some _ => r
    | none =>
      let rr := processEntries oracle rest
      ⟨r.log ++ rr.log, r.written ++ rr.written, r.calls ++ rr.calls, rr.exc⟩

/-- `main()`: the source-icon existence check, the manifest existence
check, `json.load`, and the entry loop followed by the completion notice
(printed only if no exception escaped the loop). -/
def pyMain (w : World) : RunResult :=
  if !w.sourceExists then ⟨[.errSourceNotFound], [], [], none⟩
  else if !w.manifestExists then ⟨[.errManifestNotFound], [], [], none⟩
  else
    match w.manifest with
    | .invalid => ⟨[], [], [], some .jsonDecodeError⟩
    | .parsed imgs =>
      let r := processEntries w.oracle (imgs.getD [])
      ⟨.processing :: (r.log ++ if r.exc.isNone then [.complete] else []),
       r.written, r.calls, r.exc⟩

/-- Whether a log line is a per-item success line (`Generated: ...`). -/
def isSuccessEvent : Event → Bool
  | .generated _ _ _ => true
  | _ => false

/-- Whether a log line is a per-item failure line (`Error generating ...`). -/
def isFailureEvent : Event → Bool
  | .errorGenerating _ _ => true
  | _ => false

/-- Number of per-item success lines in a run's output. -/
def generatedCount (r : RunResult) : Nat := r.log.countP isSuccessEvent

/-- Number of per-item failure lines in a run's output. -/
def failedCount (r : RunResult) : Nat := r.log.countP isFailureEvent

/-- An entry whose `size` and `scale` fields are present, non-empty and
well-formed (both parses succeed); `filename` is unconstrained. -/
def entryFieldsValid (e : Entry) : Bool :=
  strTruthy e.size && strTruthy e.scale &&
    (parseSize (e.size.getD "")).isSome && (parseScale (e.scale.getD "")).isSome

/-- A single well-formed entry with a filename. -/
def esA : List Entry := [⟨some "a.png", some "20x20", some "2x"⟩]

/-- Two entries: one with a filename, one with the `filename` key absent. -/
def esMixed : List Entry :=
  [⟨some "a.png", some "20x20", some "2x"⟩, ⟨none, some "29x29", some "3x"⟩]

/-- A malformed first entry (`size` `"20"`, no `'x'`) followed by a
well-formed entry. -/
def esMalformed : List Entry :=
  [⟨some "a.png", some "20", some "2x"⟩, ⟨some "b.png", some "20x20", some "2x"⟩]

/-- An external tool that raises a non-`CalledProcessError` exception
(e.g. `OSError`) on the first entry's destination and succeeds elsewhere. -/
def oracleRaiseFirst : String → ℤ → ℤ → ResizeOutcome :=
  fun d _ _ => if d = destOf "a.png" then .raiseOther "OSError" else .ok

/-- A run whose manifest parses to a JSON object with no `images` key. -/
def wNoImagesKey : World := ⟨true, true, .parsed none, fun _ _ _ => .ok⟩

/-- A run whose manifest has a malformed first entry. -/
def wMalformedEntry : World := ⟨true, true, .parsed (some esMalformed), fun _ _ _ => .ok⟩

/-- A run where the external tool raises on the first of two entries. -/
def wRaise : World :=
  ⟨true, true,
   .parsed (some [⟨some "a.png", some "20x20", some "2x"⟩,
                  ⟨some "b.png", some "20x20", some "2x"⟩]),
   oracleRaiseFirst⟩

/-- A one-entry run whose single resize succeeds. -/
def wOneOk : World := ⟨true, true, .parsed (some esA), fun _ _ _ => .ok⟩

/-- A one-entry run whose single resize exits non-zero. -/
def wOneFail : World := ⟨true, true, .parsed (some esA), fun _ _ _ => .nonZeroExit "sips failed"⟩

/-- A two-entry run: one entry with a filename, one without. -/
def wMixed : World := ⟨true, true, .parsed (some esMixed), fun _ _ _ => .ok⟩

/-- A run whose source icon is missing. -/
def wSrcMissing : World := ⟨false, true, .parsed (some esA), fun _ _ _ => .ok⟩

lemma pyInt_eq (q : ℚ) (n : ℤ) (h0 : 0 ≤ q) (h1 : (n : ℚ) ≤ q) (h2 : q < n + 1) :
    pyInt q = n := by
  unfold pyInt
  rw [if_pos h0]
  exact Int.floor_eq_iff.mpr ⟨h1, h2⟩

lemma pyInt_nonneg_floor (q : ℚ) (h0 : 0 ≤ q) : pyInt q = ⌊q⌋ := by
  unfold pyInt
  exact if_pos h0

lemma roundTiesAway_eq (q : ℚ) (n : ℤ) (h0 : 0 ≤ q) (h1 : (n : ℚ) ≤ q + 1/2)
    (h2 : q + 1/2 < n + 1) : roundTiesAway q = n := by
  unfold roundTiesAway
  rw [if_pos h0]
  exact Int.floor_eq_iff.mpr ⟨h1, h2⟩

lemma parseSize_20x20 : parseSize "20x20" = some (20, 20) := by
  simp [parseSize, parsePyFloatChars, splitOnChar, natOfDigits, digitVal]

lemma parseSize_29x29 : parseSize "29x29" = some (29, 29) := by
  simp [parseSize, parsePyFloatChars, splitOnChar, natOfDigits, digitVal]

lemma parseSize_83p5 : parseSize "83.5x83.5" = some (167/2, 167/2) := by
  simp [parseSize, parsePyFloatChars, splitOnChar, natOfDigits, digitVal]
  norm_num

lemma parseSize_0p5 : parseSize "0.5x0.5" = some (1/2, 1/2) := by
  simp [parseSize, parsePyFloatChars, splitOnChar, natOfDigits, digitVal]
  norm_num

lemma parseSize_20_none : parseSize "20" = none := by
  simp [parseSize, parsePyFloatChars, splitOnChar, natOfDigits, digitVal]

lemma parseScale_1x : parseScale "1x" = some 1 := by
  simp [parseScale, parsePyFloatChars, pyReplaceX, splitOnChar, natOfDigits, digitVal]

lemma parseScale_2x : parseScale "2x" = some 2 := by
  simp [parseScale, parsePyFloatChars, pyReplaceX, splitOnChar, natOfDigits, digitVal]

lemma parseScale_3x : parseScale "3x" = some 3 := by
  simp [parseScale, parsePyFloatChars, pyReplaceX, splitOnChar, natOfDigits, digitVal]

lemma parseScale_x2 : parseScale "x2" = some 2 := by
  simp [parseScale, parsePyFloatChars, pyReplaceX, splitOnChar, natOfDigits, digitVal]

lemma parseScale_2 : parseScale "2" = some 2 := by
  simp [parseScale, parsePyFloatChars, pyReplaceX, splitOnChar, natOfDigits, digitVal]

lemma parseScale_ax_none : parseScale "ax" = none := by
  simp [parseScale, parsePyFloatChars, pyReplaceX, splitOnChar, natOfDigits, digitVal]

lemma pixel_20_2 : pixelSize 20 20 2 = (40, 40) := by
  unfold pixelSize
  rw [pyInt_eq ((20 : ℚ) * 2) 40 (by norm_num) (by norm_num) (by norm_num)]

lemma pixel_29_3 : pixelSize 29 29 3 = (87, 87) := by
  unfold pixelSize
  rw [pyInt_eq ((29 : ℚ) * 3) 87 (by norm_num) (by norm_num) (by norm_num)]

lemma pixel_83p5_2 : pixelSize (167/2) (167/2) 2 = (167, 167) := by
  unfold pixelSize
  rw [pyInt_eq ((167/2 : ℚ) * 2) 167 (by norm_num) (by norm_num) (by norm_num)]

lemma pixel_0p5_1 : pixelSize (1/2) (1/2) 1 = (0, 0) := by
  unfold pixelSize
  rw [pyInt_eq ((1/2 : ℚ) * 1) 0 (by norm_num) (by norm_num) (by norm_num)]

lemma processEntry_skip (o : String → ℤ → ℤ → ResizeOutcome) (e : Entry)
    (h : (strTruthy e.filename && strTruthy e.size && strTruthy e.scale) = false) :
    processEntry o e = ⟨[], [], [], none⟩ := by
  simp [processEntry, h]

lemma processEntry_ok (o : String → ℤ → ℤ → ResizeOutcome) (e : Entry) (wpt hpt sc : ℚ)
    (hg : (strTruthy e.filename && strTruthy e.size && strTruthy e.scale) = true)
    (hps : parseSize (e.size.getD "") = some (wpt, hpt))
    (hpc : parseScale (e.scale.getD "") = some sc)
    (ho : o (destOf (e.filename.getD "")) (pixelSize wpt hpt sc).1 (pixelSize wpt hpt sc).2
            = .ok) :
    processEntry o e =
      ⟨[.generated (destOf (e.filename.getD "")) (pixelSize wpt hpt sc).1
          (pixelSize wpt hpt sc).2],
       [destOf (e.filename.getD "")],
       [(destOf (e.filename.getD ""), (pixelSize wpt hpt sc).1, (pixelSize wpt hpt sc).2)],
       none⟩ := by
  simp [processEntry, hg, hps, hpc, ho]

lemma processEntry_nonZero (o : String → ℤ → ℤ → ResizeOutcome) (e : Entry)
    (wpt hpt sc : ℚ) (err : String)
    (hg : (strTruthy e.filename && strTruthy e.size && strTruthy e.scale) = true)
    (hps : parseSize (e.size.getD "") = some (wpt, hpt))
    (hpc : parseScale (e.scale.getD "") = some sc)
    (ho : o (destOf (e.filename.getD "")) (pixelSize wpt hpt sc).1 (pixelSize wpt hpt sc).2
            = .nonZeroExit err) :
    processEntry o e =
      ⟨[.errorGenerating (destOf (e.filename.getD "")) err],
       [],
       [(destOf (e.filename.getD ""), (pixelSize wpt hpt sc).1, (pixelSize wpt hpt sc).2)],
       none⟩ := by
  simp [processEntry, hg, hps, hpc, ho]

lemma processEntry_raise (o : String → ℤ → ℤ → ResizeOutcome) (e : Entry)
    (wpt hpt sc : ℚ) (err : String)
    (hg : (strTruthy e.filename && strTruthy e.size && strTruthy e.scale) = true)
    (hps : parseSize (e.size.getD "") = some (wpt, hpt))
    (hpc : parseScale (e.scale.getD "") = some sc)
    (ho : o (destOf (e.filename.getD "")) (pixelSize wpt hpt sc).1 (pixelSize wpt hpt sc).2
            = .raiseOther err) :
    processEntry o e =
      ⟨[], [],
       [(destOf (e.filename.getD ""), (pixelSize wpt hpt sc).1, (pixelSize wpt hpt sc).2)],
       some (.resizeRaise err)⟩ := by
  simp [processEntry, hg, hps, hpc, ho]

lemma processEntry_sizeError (o : String → ℤ → ℤ → ResizeOutcome) (e : Entry)
    (hg : (strTruthy e.filename && strTruthy e.size && strTruthy e.scale) = true)
    (hps : parseSize (e.size.getD "") = none) :
    processEntry o e = ⟨[], [], [], some .valueError⟩ := by
  simp [processEntry, hg, hps]

lemma processEntry_scaleError (o : String → ℤ → ℤ → ResizeOutcome) (e : Entry)
    (wpt hpt : ℚ)
    (hg : (strTruthy e.filename && strTruthy e.size && strTruthy e.scale) = true)
    (hps : parseSize (e.size.getD "") = some (wpt, hpt))
    (hpc : parseScale (e.scale.getD "") = none) :
    processEntry o e = ⟨[], [], [], some .valueError⟩ := by
  simp [processEntry, hg, hps, hpc]

lemma processEntries_cons_none (o : String → ℤ → ℤ → ResizeOutcome) (e : Entry)
    (rest : List Entry) (h : (processEntry o e).exc = none) :
    processEntries o (e :: rest) =
      ⟨(processEntry o e).log ++ (processEntries o rest).log,
       (processEntry o e).written ++ (processEntries o rest).written,
       (processEntry o e).calls ++ (processEntries o rest).calls,
       (processEntries o rest).exc⟩ := by
  simp only [processEntries]
  rw [h]

lemma processEntries_cons_some (o : String → ℤ → ℤ → ResizeOutcome) (e : Entry)
    (rest : List Entry) (ex : PyException) (h : (processEntry o e).exc = some ex) :
    processEntries o (e :: rest) = processEntry o e := by
  simp only [processEntries]
  rw [h]

lemma processEntries_cons_skip (o : String → ℤ → ℤ → ResizeOutcome) (e : Entry)
    (rest : List Entry) (h : processEntry o e = ⟨[], [], [], none⟩) :
    processEntries o (e :: rest) = processEntries o rest := by
  rw [processEntries_cons_none o e rest (by rw [h]), h]
  simp

lemma pyMain_parsed (w : World) (es : List Entry) (hs : w.sourceExists = true)
    (hm : w.manifestExists = true) (hman : w.manifest = .parsed (some es)) :
    pyMain w =
      ⟨.processing :: ((processEntries w.oracle es).log ++
         if (processEntries w.oracle es).exc.isNone then [.complete] else []),
       (processEntries w.oracle es).written,
       (processEntries w.oracle es).calls,
       (processEntries w.oracle es).exc⟩ := by
  simp [pyMain, hs, hm, hman]

lemma pyReplaceX_eq_filter : ∀ l : List Char, pyReplaceX l = l.filter (fun c => c ≠ 'x')
  | [] => rfl
  | c :: cs => by
    by_cases h : c = 'x' <;> simp [pyReplaceX, h, pyReplaceX_eq_filter cs]

lemma processEntry_log_shape (o : String → ℤ → ℤ → ResizeOutcome) (e : Entry) (ev : Event)
    (h : ev ∈ (processEntry o e).log) :
    (∃ d a b, ev = .generated d a b) ∨ ∃ d err, ev = .errorGenerating d err := by
  unfold processEntry at h
  split at h
  · split at h
    · simp at h
    · split at h
      · simp at h
      · dsimp only at h
        split at h
        · simp at h
          exact Or.inl ⟨_, _, _, h⟩
        · simp at h
          exact Or.inr ⟨_, _, h⟩
        · simp at h
  · simp at h

lemma processEntries_log_shape (o : String → ℤ → ℤ → ResizeOutcome) :
    ∀ (es : List Entry) (ev : Event), ev ∈ (processEntries o es).log →
      (∃ d a b, ev = .generated d a b) ∨ ∃ d err, ev = .errorGenerating d err := by
  intro es
  induction es with
  | nil => intro ev h; simp [processEntries] at h
  | cons e rest ih =>
    intro ev h
    rcases hx : (processEntry o e).exc with _ | ex
    · rw [processEntries_cons_none o e rest hx] at h
      simp only [List.mem_append] at h
      rcases h with h | h
      · exact processEntry_log_shape o e ev h
      · exact ih ev h
    · rw [processEntries_cons_some o e rest ex hx] at h
      exact processEntry_log_shape o e ev h

lemma processEntries_allOk (o : String → ℤ → ℤ → ResizeOutcome)
    (hok : ∀ d a b, o d a b = .ok) :
    ∀ es : List Entry, (∀ e ∈ es, entryFieldsValid e = true) →
      (processEntries o es).exc = none ∧
      (processEntries o es).written =
        ((es.filter fun e => strTruthy e.filename).map fun e => destOf (e.filename.getD "")) ∧
      (processEntries o es).calls.length =
        (es.filter fun e => strTruthy e.filename).length ∧
      ∀ ev ∈ (processEntries o es).log, isFailureEvent ev = false := by
  intro es
  induction es with
  | nil =>
    intro _
    refine ⟨rfl, rfl, rfl, ?_⟩
    intro ev h
    simp [processEntries] at h
  | cons e rest ih =>
    intro hval
    have hrest := ih (fun x hx => hval x (List.mem_cons_of_mem _ hx))
    have he := hval e (List.mem_cons_self _ _)
    unfold entryFieldsValid at he
    simp only [Bool.and_eq_true] at he
    obtain ⟨⟨⟨hsz, hsc⟩, hpsz⟩, hpsc⟩ := he
    obtain ⟨⟨wpt, hpt⟩, hps⟩ := Option.isSome_iff_exists.mp hpsz
    obtain ⟨sc, hpc⟩ := Option.isSome_iff_exists.mp hpsc
    by_cases hf : strTruthy e.filename = true
    · have hg : (strTruthy e.filename && strTruthy e.size && strTruthy e.scale) = true := by
        simp [hf, hsz, hsc]
      have hrun := processEntry_ok o e wpt hpt sc hg hps hpc (hok _ _ _)
      rw [processEntries_cons_none o e rest (by rw [hrun])]
      rw [hrun]
      refine ⟨hrest.1, ?_, ?_, ?_⟩
      · simp [List.filter_cons, hf, hrest.2.1]
      · simp [List.filter_cons, hf, hrest.2.2.1]
      · intro ev hev
        simp only [List.mem_append] at hev
        rcases hev with hev | hev
        · simp at hev
          subst hev
          rfl
        · exact hrest.2.2.2 ev hev
    · have hf2 : strTruthy e.filename = false := by
        simpa using hf
      have hg : (strTruthy e.filename && strTruthy e.size && strTruthy e.scale) = false := by
        simp [hf2]
      rw [processEntries_cons_skip o e rest (processEntry_skip o e hg)]
      have hfil : (List.filter (fun e => strTruthy e.filename) (e :: rest)) =
          List.filter (fun e => strTruthy e.filename) rest := by
        simp [List.filter_cons, hf2]
      rw [hfil]
      exact hrest

lemma processEntry_esA_ok :
    processEntry (fun _ _ _ => .ok) ⟨some "a.png", some "20x20", some "2x"⟩ =
      ⟨[.generated (destOf "a.png") 40 40], [destOf "a.png"], [(destOf "a.png", 40, 40)],
       none⟩ := by
  rw [processEntry_ok (fun _ _ _ => .ok) ⟨some "a.png", some "20x20", some "2x"⟩ 20 20 2
        (by decide) parseSize_20x20 parseScale_2x rfl, pixel_20_2]
  rfl

lemma processEntries_esA_ok :
    processEntries (fun _ _ _ => .ok) esA =
      ⟨[.generated (destOf "a.png") 40 40], [destOf "a.png"], [(destOf "a.png", 40, 40)],
       none⟩ := by
  rw [show esA = ⟨some "a.png", some "20x20", some "2x"⟩ :: [] from rfl,
      processEntries_cons_none _ _ _ (by rw [processEntry_esA_ok]), processEntry_esA_ok]
  simp [processEntries]

lemma processEntry_esA_fail :
    processEntry (fun _ _ _ => .nonZeroExit "sips failed")
        ⟨some "a.png", some "20x20", some "2x"⟩ =
      ⟨[.errorGenerating (destOf "a.png") "sips failed"], [], [(destOf "a.png", 40, 40)],
       none⟩ := by
  rw [processEntry_nonZero (fun _ _ _ => .nonZeroExit "sips failed")
        ⟨some "a.png", some "20x20", some "2x"⟩ 20 20 2 "sips failed"
        (by decide) parseSize_20x20 parseScale_2x rfl, pixel_20_2]
  rfl

lemma processEntries_esA_fail :
    processEntries (fun _ _ _ => .nonZeroExit "sips failed") esA =
      ⟨[.errorGenerating (destOf "a.png") "sips failed"], [], [(destOf "a.png", 40, 40)],
       none⟩ := by
  rw [show esA = ⟨some "a.png", some "20x20", some "2x"⟩ :: [] from rfl,
      processEntries_cons_none _ _ _ (by rw [processEntry_esA_fail]), processEntry_esA_fail]
  simp [processEntries]

/-- C1: the claim says the derived pixel size is round-to-nearest (ties away
from zero) of pointSize·scaleFactor. The script uses Python `int()`
(truncation): on the entry `size "0.5x0.5"`, `scale "1x"` (exact in binary
floating point) the script derives (0, 0) while the spec's rounding gives
(1, 1). -/
theorem C1_counterexample :
    (processEntry (fun _ _ _ => .ok) ⟨some "f.png", some "0.5x0.5", some "1x"⟩).calls
      = [(destOf "f.png", 0, 0)] ∧
    pixelSizeSpec (1/2) (1/2) 1 = (1, 1) := by
  constructor
  · rw [processEntry_ok (fun _ _ _ => .ok) ⟨some "f.png", some "0.5x0.5", some "1x"⟩
          (1/2) (1/2) 1 (by decide) parseSize_0p5 parseScale_1x rfl, pixel_0p5_1]
    rfl
  · unfold pixelSizeSpec
    rw [roundTiesAway_eq ((1/2 : ℚ) * 1) 1 (by norm_num) (by norm_num) (by norm_num)]

/-- C1 (amended): for every entry whose fields are present and parse to
point size (w, h) and scale s, all non-negative with positive scale, the
pixel size passed to the external tool is (⌊w·s⌋, ⌊h·s⌋) — truncation
toward zero (= floor on these non-negative values), not round-to-nearest. -/
theorem C1_amended (o : String → ℤ → ℤ → ResizeOutcome) (e : Entry) (wpt hpt sc : ℚ)
    (hg : (strTruthy e.filename && strTruthy e.size && strTruthy e.scale) = true)
    (hps : parseSize (e.size.getD "") = some (wpt, hpt))
    (hpc : parseScale (e.scale.getD "") = some sc)
    (hw : 0 ≤ wpt) (hh : 0 ≤ hpt) (hsc : 0 < sc) :
    (processEntry o e).calls = [(destOf (e.filename.getD ""), ⌊wpt * sc⌋, ⌊hpt * sc⌋)] := by
  have hpx : pixelSize wpt hpt sc = (⌊wpt * sc⌋, ⌊hpt * sc⌋) := by
    unfold pixelSize
    rw [pyInt_nonneg_floor _ (mul_nonneg hw hsc.le), pyInt_nonneg_floor _ (mul_nonneg hh hsc.le)]
  rcases ho : o (destOf (e.filename.getD "")) (pixelSize wpt hpt sc).1 (pixelSize wpt hpt sc).2
    with _ | err | err
  · rw [processEntry_ok o e wpt hpt sc hg hps hpc ho, hpx]
  · rw [processEntry_nonZero o e wpt hpt sc err hg hps hpc ho, hpx]
  · rw [processEntry_raise o e wpt hpt sc err hg hps hpc ho, hpx]

/-- C1 witness: concrete instance of the amended statement. -/
theorem C1_amended_witness :
    (processEntry (fun _ _ _ => .ok) ⟨some "g.png", some "20x20", some "2x"⟩).calls
      = [(destOf "g.png", ⌊(20 : ℚ) * 2⌋, ⌊(20 : ℚ) * 2⌋)] :=
  C1_amended (fun _ _ _ => .ok) ⟨some "g.png", some "20x20", some "2x"⟩ 20 20 2
    (by decide) parseSize_20x20 parseScale_2x (by norm_num) (by norm_num) (by norm_num)

/-- C2: the claim says a manifest lacking the top-level `images` key fails
with `ManifestMalformed`. The script reads `contents.get("images", [])`, so
a parsed manifest with no `images` key is processed as an empty manifest:
the run completes normally (no exception, no failure line, no output). -/
theorem C2_counterexample :
    pyMain wNoImagesKey = ⟨[.processing, .complete], [], [], none⟩ ∧
    (pyMain wNoImagesKey).exc = none := by
  constructor <;> simp [pyMain, wNoImagesKey, processEntries]

/-- C2 (amended): a missing manifest file aborts the run (error line, no
entries, no output); an unparseable manifest aborts with an uncaught
`JSONDecodeError` before any entry (no output); but a parsed manifest
lacking the top-level `images` key is treated as empty and the run
completes normally. -/
theorem C2_amended (w : World) (hs : w.sourceExists = true) :
    (w.manifestExists = false → pyMain w = ⟨[.errManifestNotFound], [], [], none⟩) ∧
    (w.manifestExists = true → w.manifest = .invalid →
       pyMain w = ⟨[], [], [], some .jsonDecodeError⟩) ∧
    (w.manifestExists = true → w.manifest = .parsed none →
       pyMain w = ⟨[.processing, .complete], [], [], none⟩) := by
  refine ⟨?_, ?_, ?_⟩
  · intro hm
    simp [pyMain, hs, hm]
  · intro hm hmf
    simp [pyMain, hs, hm, hmf]
  · intro hm hmf
    simp [pyMain, hs, hm, hmf, processEntries]

/-- C2 witness: the three amended branches at concrete worlds. -/
theorem C2_amended_witness :
    pyMain ⟨true, false, .parsed none, fun _ _ _ => .ok⟩
      = ⟨[.errManifestNotFound], [], [], none⟩ ∧
    pyMain ⟨true, true, .invalid, fun _ _ _ => .ok⟩
      = ⟨[], [], [], some .jsonDecodeError⟩ ∧
    pyMain ⟨true, true, .parsed none, fun _ _ _ => .ok⟩
      = ⟨[.processing, .complete], [], [], none⟩ :=
  ⟨(C2_amended ⟨true, false, .parsed none, fun _ _ _ => .ok⟩ rfl).1 rfl,
   (C2_amended ⟨true, true, .invalid, fun _ _ _ => .ok⟩ rfl).2.1 rfl rfl,
   (C2_amended ⟨true, true, .parsed none, fun _ _ _ => .ok⟩ rfl).2.2 rfl rfl⟩

/-- C3: the claim says a present-but-malformed `size`/`scale` field makes
the entry be skipped. In the script `map(float, size_str.split('x'))`
raises an uncaught `ValueError`, aborting the whole run: on the manifest
`[{filename: "a.png", size: "20", scale: "2x"}, {filename: "b.png",
size: "20x20", scale: "2x"}]` the run dies on the first entry and the
well-formed second entry is never attempted. -/
theorem C3_counterexample :
    pyMain wMalformedEntry = ⟨[.processing], [], [], some .valueError⟩ := by
  have h1 : processEntry wMalformedEntry.oracle ⟨some "a.png", some "20", some "2x"⟩
      = ⟨[], [], [], some .valueError⟩ :=
    processEntry_sizeError _ _ (by decide) parseSize_20_none
  have h2 : processEntries wMalformedEntry.oracle esMalformed
      = ⟨[], [], [], some .valueError⟩ := by
    rw [show esMalformed = ⟨some "a.png", some "20", some "2x"⟩ ::
          [⟨some "b.png", some "20x20", some "2x"⟩] from rfl,
        processEntries_cons_some _ _ _ .valueError (by rw [h1]), h1]
  rw [pyMain_parsed wMalformedEntry esMalformed rfl rfl rfl, h2]
  rfl

/-- C3 (amended): an entry with a missing or empty `filename`/`size`/`scale`
is skipped and processing continues with the remaining entries; but an
entry whose present `size` or `scale` fails to parse raises an uncaught
`ValueError` that aborts the run, so subsequent entries are not attempted. -/
theorem C3_amended (o : String → ℤ → ℤ → ResizeOutcome) (e : Entry) (rest : List Entry) :
    ((strTruthy e.filename = false ∨ strTruthy e.size = false ∨ strTruthy e.scale = false) →
       processEntries o (e :: rest) = processEntries o rest) ∧
    ((strTruthy e.filename && strTruthy e.size && strTruthy e.scale) = true →
       parseSize (e.size.getD "") = none →
       processEntries o (e :: rest) = ⟨[], [], [], some .valueError⟩) ∧
    (∀ wpt hpt : ℚ,
       (strTruthy e.filename && strTruthy e.size && strTruthy e.scale) = true →
       parseSize (e.size.getD "") = some (wpt, hpt) → parseScale (e.scale.getD "") = none →
       processEntries o (e :: rest) = ⟨[], [], [], some .valueError⟩) := by
  refine ⟨?_, ?_, ?_⟩
  · intro h
    have hg : (strTruthy e.filename && strTruthy e.size && strTruthy e.scale) = false := by
      rcases h with h | h | h <;> simp [h]
    exact processEntries_cons_skip o e rest (processEntry_skip o e hg)
  · intro hg hps
    rw [processEntries_cons_some o e rest .valueError
          (by rw [processEntry_sizeError o e hg hps]),
        processEntry_sizeError o e hg hps]
  · intro wpt hpt hg hps hpc
    rw [processEntries_cons_some o e rest .valueError
          (by rw [processEntry_scaleError o e wpt hpt hg hps hpc]),
        processEntry_scaleError o e wpt hpt hg hps hpc]

/-- C3 witness: concrete instances of the three amended branches. -/
theorem C3_amended_witness :
    processEntries (fun _ _ _ => .ok)
        [⟨some "a.png", none, some "2x"⟩, ⟨some "b.png", some "20x20", some "2x"⟩]
      = processEntries (fun _ _ _ => .ok) [⟨some "b.png", some "20x20", some "2x"⟩] ∧
    processEntries (fun _ _ _ => .ok) [⟨some "a.png", some "20", some "2x"⟩]
      = ⟨[], [], [], some .valueError⟩ ∧
    processEntries (fun _ _ _ => .ok) [⟨some "a.png", some "20x20", some "ax"⟩]
      = ⟨[], [], [], some .valueError⟩ :=
  ⟨(C3_amended (fun _ _ _ => .ok) ⟨some "a.png", none, some "2x"⟩
      [⟨some "b.png", some "20x20", some "2x"⟩]).1 (Or.inr (Or.inl rfl)),
   (C3_amended (fun _ _ _ => .ok) ⟨some "a.png", some "20", some "2x"⟩ []).2.1
      (by decide) parseSize_20_none,
   (C3_amended (fun _ _ _ => .ok) ⟨some "a.png", some "20x20", some "ax"⟩ []).2.2
      20 20 (by decide) parseSize_20x20 parseScale_ax_none⟩

/-- C4: the claim says any failure of the external capability — non-zero
exit or a raised exception — is recorded and processing continues. The
`try/except` in `resize_image` catches only `CalledProcessError`; any
other exception from `subprocess.run` (e.g. `OSError`) propagates and
aborts the batch: with the tool raising on the first of two entries, the
second entry is never invoked and no failure line is recorded. -/
theorem C4_counterexample :
    pyMain wRaise = ⟨[.processing], [], [(destOf "a.png", 40, 40)],
      some (.resizeRaise "OSError")⟩ := by
  have ho : oracleRaiseFirst (destOf "a.png") (pixelSize 20 20 2).1 (pixelSize 20 20 2).2
      = .raiseOther "OSError" := by
    simp [oracleRaiseFirst]
  have h1 : processEntry wRaise.oracle ⟨some "a.png", some "20x20", some "2x"⟩
      = ⟨[], [], [(destOf "a.png", (pixelSize 20 20 2).1, (pixelSize 20 20 2).2)],
         some (.resizeRaise "OSError")⟩ :=
    processEntry_raise _ _ 20 20 2 "OSError" (by decide) parseSize_20x20 parseScale_2x ho
  have h2 : processEntries wRaise.oracle
      [⟨some "a.png", some "20x20", some "2x"⟩, ⟨some "b.png", some "20x20", some "2x"⟩]
      = ⟨[], [], [(destOf "a.png", (pixelSize 20 20 2).1, (pixelSize 20 20 2).2)],
         some (.resizeRaise "OSError")⟩ := by
    rw [processEntries_cons_some _ _ _ (.resizeRaise "OSError") (by rw [h1]), h1]
  rw [pyMain_parsed wRaise
        [⟨some "a.png", some "20x20", some "2x"⟩, ⟨some "b.png", some "20x20", some "2x"⟩]
        rfl rfl rfl, h2, pixel_20_2]
  rfl

/-- C4 (amended): a non-zero exit of the external tool (`CalledProcessError`)
is recorded as a per-item failure line naming the destination file and the
error, and processing continues with all subsequent entries; any other
exception raised by the invocation is uncaught and aborts the batch, so
subsequent entries are not attempted. -/
theorem C4_amended (o : String → ℤ → ℤ → ResizeOutcome) (e : Entry) (rest : List Entry)
    (wpt hpt sc : ℚ)
    (hg : (strTruthy e.filename && strTruthy e.size && strTruthy e.scale) = true)
    (hps : parseSize (e.size.getD "") = some (wpt, hpt))
    (hpc : parseScale (e.scale.getD "") = some sc) :
    (∀ err, o (destOf (e.filename.getD "")) (pixelSize wpt hpt sc).1 (pixelSize wpt hpt sc).2
        = .nonZeroExit err →
       processEntries o (e :: rest) =
         ⟨.errorGenerating (destOf (e.filename.getD "")) err :: (processEntries o rest).log,
          (processEntries o rest).written,
          (destOf (e.filename.getD ""), (pixelSize wpt hpt sc).1, (pixelSize wpt hpt sc).2)
            :: (processEntries o rest).calls,
          (processEntries o rest).exc⟩) ∧
    (∀ err, o (destOf (e.filename.getD "")) (pixelSize wpt hpt sc).1 (pixelSize wpt hpt sc).2
        = .raiseOther err →
       processEntries o (e :: rest) =
         ⟨[], [],
          [(destOf (e.filename.getD ""), (pixelSize wpt hpt sc).1, (pixelSize wpt hpt sc).2)],
          some (.resizeRaise err)⟩) := by
  constructor
  · intro err ho
    rw [processEntries_cons_none o e rest
          (by rw [processEntry_nonZero o e wpt hpt sc err hg hps hpc ho]),
        processEntry_nonZero o e wpt hpt sc err hg hps hpc ho]
    rfl
  · intro err ho
    rw [processEntries_cons_some o e rest (.resizeRaise err)
          (by rw [processEntry_raise o e wpt hpt sc err hg hps hpc ho]),
        processEntry_raise o e wpt hpt sc err hg hps hpc ho]

/-- C4 witness: both amended branches at a concrete entry. -/
theorem C4_amended_witness :
    processEntries (fun _ _ _ => .nonZeroExit "boom")
        [⟨some "w.png", some "20x20", some "2x"⟩]
      = ⟨[.errorGenerating (destOf "w.png") "boom"], [],
         [(destOf "w.png", (pixelSize 20 20 2).1, (pixelSize 20 20 2).2)], none⟩ ∧
    processEntries (fun _ _ _ => .raiseOther "OSError")
        [⟨some "w.png", some "20x20", some "2x"⟩]
      = ⟨[], [], [(destOf "w.png", (pixelSize 20 20 2).1, (pixelSize 20 20 2).2)],
         some (.resizeRaise "OSError")⟩ := by
  constructor
  · have h := (C4_amended (fun _ _ _ => .nonZeroExit "boom")
        ⟨some "w.png", some "20x20", some "2x"⟩ [] 20 20 2
        (by decide) parseSize_20x20 parseScale_2x).1 "boom" rfl
    exact h
  · exact (C4_amended (fun _ _ _ => .raiseOther "OSError")
        ⟨some "w.png", some "20x20", some "2x"⟩ [] 20 20 2
        (by decide) parseSize_20x20 parseScale_2x).2 "OSError" rfl

/-- C5: if the source image does not exist, `main` reports the error and
returns before reading the manifest: no entry is processed, zero external
invocations occur and zero output files are written. -/
theorem C5_source_missing (w : World) (h : w.sourceExists = false) :
    pyMain w = ⟨[.errSourceNotFound], [], [], none⟩ := by
  simp [pyMain, h]

/-- C5 witness: concrete world with a missing source icon. -/
theorem C5_source_missing_witness :
    pyMain wSrcMissing = ⟨[.errSourceNotFound], [], [], none⟩ :=
  C5_source_missing wSrcMissing rfl

/-- C6: on a manifest whose entries all have well-formed `size` and `scale`,
with the external tool succeeding, the run makes exactly one invocation per
entry with a truthy (present, non-empty) filename, writes exactly the
corresponding destination files in order, raises nothing, and logs no
failure line (entries without a filename contribute nothing). -/
theorem C6_one_invocation_per_filename (w : World) (es : List Entry)
    (hs : w.sourceExists = true) (hm : w.manifestExists = true)
    (hman : w.manifest = .parsed (some es))
    (hval : ∀ e ∈ es, entryFieldsValid e = true)
    (hok : ∀ d a b, w.oracle d a b = .ok) :
    (pyMain w).calls.length = (es.filter fun e => strTruthy e.filename).length ∧
    (pyMain w).written =
      ((es.filter fun e => strTruthy e.filename).map fun e => destOf (e.filename.getD "")) ∧
    (pyMain w).exc = none ∧
    ∀ ev ∈ (pyMain w).log, isFailureEvent ev = false := by
  obtain ⟨h1, h2, h3, h4⟩ := processEntries_allOk w.oracle hok es hval
  rw [pyMain_parsed w es hs hm hman]
  refine ⟨h3, h2, h1, ?_⟩
  intro ev hev
  simp only [List.mem_cons, List.mem_append, h1, Option.isNone_none, if_true] at hev
  rcases hev with hev | hev
  · subst hev
    rfl
  · rcases hev with hev | hev
    · exact h4 ev hev
    · simp at hev
      subst hev
      rfl

/-- C6 witness: a two-entry manifest, one entry with a filename and one
without. -/
theorem C6_witness :
    (pyMain wMixed).calls.length = (esMixed.filter fun e => strTruthy e.filename).length ∧
    (pyMain wMixed).written =
      ((esMixed.filter fun e => strTruthy e.filename).map fun e => destOf (e.filename.getD "")) ∧
    (pyMain wMixed).exc = none ∧
    ∀ ev ∈ (pyMain wMixed).log, isFailureEvent ev = false :=
  C6_one_invocation_per_filename wMixed esMixed rfl rfl rfl (by decide) (fun _ _ _ => rfl)

/-- C7: the pixel sizes the script derives and passes to the external tool
on the spec's three example entries: "20x20" at "2x" → 40×40,
"29x29" at "3x" → 87×87, "83.5x83.5" at "2x" → 167×167 (the computation
is a function of the entry, hence deterministic). -/
theorem C7_pixel_values :
    (processEntry (fun _ _ _ => .ok) ⟨some "p1.png", some "20x20", some "2x"⟩).calls
      = [(destOf "p1.png", 40, 40)] ∧
    (processEntry (fun _ _ _ => .ok) ⟨some "p2.png", some "29x29", some "3x"⟩).calls
      = [(destOf "p2.png", 87, 87)] ∧
    (processEntry (fun _ _ _ => .ok) ⟨some "p3.png", some "83.5x83.5", some "2x"⟩).calls
      = [(destOf "p3.png", 167, 167)] := by
  refine ⟨?_, ?_, ?_⟩
  · rw [processEntry_ok (fun _ _ _ => .ok) ⟨some "p1.png", some "20x20", some "2x"⟩ 20 20 2
          (by decide) parseSize_20x20 parseScale_2x rfl, pixel_20_2]
    rfl
  · rw [processEntry_ok (fun _ _ _ => .ok) ⟨some "p2.png", some "29x29", some "3x"⟩ 29 29 3
          (by decide) parseSize_29x29 parseScale_3x rfl, pixel_29_3]
    rfl
  · rw [processEntry_ok (fun _ _ _ => .ok) ⟨some "p3.png", some "83.5x83.5", some "2x"⟩
          (167/2) (167/2) 2 (by decide) parseSize_83p5 parseScale_2x rfl, pixel_83p5_2]
    rfl

/-- C8: the claim says the final summary distinguishes the generated count
from the failed count. The script's final notice is the constant
`"Icon generation complete!"`: two runs with different generated/failed
counts (1/0 versus 0/1) end in the identical count-free final line. -/
theorem C8_counterexample :
    generatedCount (pyMain wOneOk) = 1 ∧ failedCount (pyMain wOneOk) = 0 ∧
    generatedCount (pyMain wOneFail) = 0 ∧ failedCount (pyMain wOneFail) = 1 ∧
    (pyMain wOneOk).log.getLast? = some .complete ∧
    (pyMain wOneFail).log.getLast? = some .complete := by
  have hOk : pyMain wOneOk =
      ⟨[.processing, .generated (destOf "a.png") 40 40, .complete],
       [destOf "a.png"], [(destOf "a.png", 40, 40)], none⟩ := by
    rw [pyMain_parsed wOneOk esA rfl rfl rfl,
        show wOneOk.oracle = (fun _ _ _ => ResizeOutcome.ok) from rfl,
        processEntries_esA_ok]
    rfl
  have hFail : pyMain wOneFail =
      ⟨[.processing, .errorGenerating (destOf "a.png") "sips failed", .complete],
       [], [(destOf "a.png", 40, 40)], none⟩ := by
    rw [pyMain_parsed wOneFail esA rfl rfl rfl,
        show wOneFail.oracle = (fun _ _ _ => ResizeOutcome.nonZeroExit "sips failed") from rfl,
        processEntries_esA_fail]
    rfl
  refine ⟨?_, ?_, ?_, ?_, ?_, ?_⟩
  · rw [hOk]; rfl
  · rw [hOk]; rfl
  · rw [hFail]; rfl
  · rw [hFail]; rfl
  · rw [hOk]; rfl
  · rw [hFail]; rfl

/-- C8 (amended): after processing, the log is one line per attempted entry
— each a success line or a failure line naming a destination file — plus a
fixed, count-free final completion notice; no generated/failed counts are
emitted. -/
theorem C8_amended (w : World) (es : List Entry)
    (hs : w.sourceExists = true) (hm : w.manifestExists = true)
    (hman : w.manifest = .parsed (some es))
    (hexc : (processEntries w.oracle es).exc = none) :
    (pyMain w).log = .processing :: ((processEntries w.oracle es).log ++ [.complete]) ∧
    (pyMain w).log.getLast? = some .complete ∧
    ∀ ev ∈ (processEntries w.oracle es).log,
      (∃ d a b, ev = .generated d a b) ∨ ∃ d err, ev = .errorGenerating d err := by
  have hlog : (pyMain w).log
      = .processing :: ((processEntries w.oracle es).log ++ [.complete]) := by
    rw [pyMain_parsed w es hs hm hman]
    simp [hexc]
  refine ⟨hlog, ?_, fun ev h => processEntries_log_shape w.oracle es ev h⟩
  rw [hlog,
      show (Event.processing :: ((processEntries w.oracle es).log ++ [Event.complete]))
        = (Event.processing :: (processEntries w.oracle es).log) ++ [Event.complete] from
        by simp,
      List.getLast?_concat]

/-- C8 witness: the amended statement at a concrete one-entry run. -/
theorem C8_amended_witness :
    (pyMain wOneOk).log
      = .processing :: ((processEntries wOneOk.oracle esA).log ++ [.complete]) ∧
    (pyMain wOneOk).log.getLast? = some .complete ∧
    ∀ ev ∈ (processEntries wOneOk.oracle esA).log,
      (∃ d a b, ev = .generated d a b) ∨ ∃ d err, ev = .errorGenerating d err :=
  C8_amended wOneOk esA rfl rfl rfl
    (by rw [show wOneOk.oracle = (fun _ _ _ => ResizeOutcome.ok) from rfl,
            processEntries_esA_ok])

/-- C9: an entry whose `filename` is present but equal to `""` is skipped
exactly like an entry with no `filename` key (`not filename` is true for
both `None` and `""` in Python): no invocation, no output, no log line,
no exception — identical to the absent-filename behaviour. -/
theorem C9_empty_filename (o : String → ℤ → ℤ → ResizeOutcome) (sz sc : Option String) :
    processEntry o ⟨some "", sz, sc⟩ = ⟨[], [], [], none⟩ ∧
    processEntry o ⟨some "", sz, sc⟩ = processEntry o ⟨none, sz, sc⟩ := by
  have h1 : processEntry o ⟨some "", sz, sc⟩ = ⟨[], [], [], none⟩ :=
    processEntry_skip o _ (by simp [strTruthy])
  have h2 : processEntry o ⟨none, sz, sc⟩ = ⟨[], [], [], none⟩ :=
    processEntry_skip o _ (by simp [strTruthy])
  exact ⟨h1, h1.trans h2.symm⟩

/-- C10: `scale_str.replace('x', '')` removes every occurrence of `'x'`
before `float`, so the parsed scale equals the float of the string with all
`'x'` characters deleted, and non-canonical forms `"x2"` and `"2"` parse to
2 rather than being rejected. -/
theorem C10_scale_strips_all_x (s : String) :
    parseScale s = parsePyFloatChars (s.toList.filter fun c => c ≠ 'x') ∧
    parseScale "x2" = some 2 ∧ parseScale "2" = some 2 := by
  refine ⟨?_, parseScale_x2, parseScale_2⟩
  unfold parseScale
  rw [pyReplaceX_eq_filter]

end GenerateIcons
